import Mathlib

set_option maxRecDepth 40000

/-!
Verification of the libWiiPy Ticket subsystem (`src/libWiiPy/ticket.py`,
`src/libWiiPy/shared.py`) against its natural-language specification.

Byte buffers are modelled as `List Nat` (one entry per byte).  `io.BytesIO`
reads at an absolute seek offset are modelled by `readBytes`: Python's
`read(n)` after `seek(off)` returns the bytes `buf[off : off+n]`, clamped to
the end of the buffer, which is exactly `(buf.drop off).take n`.
`int.from_bytes` with big-endian byte order (the Python 3.11+ default used by
the source) is `intFromBytes`.
-/

/-- `BytesIO.seek(off); BytesIO.read(n)`: the byte slice `buf[off : off+n]`,
clamped to the end of the buffer. -/
def readBytes (buf : List Nat) (off n : Nat) : List Nat :=
  (buf.drop off).take n

/-- `int.from_bytes(bs)` with the default big-endian byte order; the empty
slice yields `0`, as in Python. -/
def intFromBytes (bs : List Nat) : Nat :=
  bs.foldl (fun acc b => acc * 256 + b) 0

/-- A UTF-8 continuation byte, `0x80 ≤ b ≤ 0xBF`. -/
def isCont (b : Nat) : Bool :=
  0x80 ≤ b && b ≤ 0xBF

/-- Strict UTF-8 decoding of a byte list into a list of Unicode code points,
mirroring Python's `bytes.decode()` with the default `utf-8` codec and
`strict` error handling: overlong encodings, surrogate code points
(`U+D800`–`U+DFFF`), code points above `U+10FFFF`, stray continuation bytes
and truncated sequences are all rejected (`none`). -/
def utf8Decode : List Nat → Option (List Nat)
  | [] => some []
  | b :: rest =>
    if b ≤ 0x7F then
      (utf8Decode rest).map (fun cs => b :: cs)
    else if 0xC2 ≤ b && b ≤ 0xDF then
      match rest with
      | b1 :: rest1 =>
        if isCont b1 then
          (utf8Decode rest1).map (fun cs => ((b - 0xC0) * 0x40 + (b1 - 0x80)) :: cs)
        else none
      | [] => none
    else if 0xE0 ≤ b && b ≤ 0xEF then
      match rest with
      | b1 :: b2 :: rest2 =>
        -- 0xE0 forbids overlong (second byte ≥ 0xA0); 0xED forbids surrogates
        -- (second byte ≤ 0x9F); all second bytes must be continuations.
        if isCont b1 && isCont b2 &&
            (decide (b ≠ 0xE0) || decide (0xA0 ≤ b1)) &&
            (decide (b ≠ 0xED) || decide (b1 ≤ 0x9F)) then
          (utf8Decode rest2).map (fun cs =>
            ((b - 0xE0) * 0x1000 + (b1 - 0x80) * 0x40 + (b2 - 0x80)) :: cs)
        else none
      | _ => none
    else if 0xF0 ≤ b && b ≤ 0xF4 then
      match rest with
      | b1 :: b2 :: b3 :: rest3 =>
        -- 0xF0 forbids overlong (second byte ≥ 0x90); 0xF4 caps the range at
        -- U+10FFFF (second byte ≤ 0x8F).
        if isCont b1 && isCont b2 && isCont b3 &&
            (decide (b ≠ 0xF0) || decide (0x90 ≤ b1)) &&
            (decide (b ≠ 0xF4) || decide (b1 ≤ 0x8F)) then
          (utf8Decode rest3).map (fun cs =>
            ((b - 0xF0) * 0x40000 + (b1 - 0x80) * 0x1000 +
              (b2 - 0x80) * 0x40 + (b3 - 0x80)) :: cs)
        else none
      | _ => none
    else none

/-!
## `shared.py`
-/

/-- `align_value(value, alignment)` from `shared.py`:
if `value % alignment != 0` the result is
`value + (alignment - value % alignment)`, otherwise `value` unchanged. -/
def align_value (value : Nat) (alignment : Nat := 64) : Nat :=
  if value % alignment ≠ 0 then
    value + (alignment - value % alignment)
  else
    value

/-- `pad_bytes_stream(data, alignment)` from `shared.py`: while the buffer
size is not a multiple of `alignment`, write a single zero byte.  The
`BytesIO` stream is modelled as its underlying byte list with the write
cursor at the end of the stream, so each `write(b'\x00')` appends one zero
byte.  The source loops forever-via-`ZeroDivisionError` territory only when
`alignment = 0`, which Python rejects with an exception; the model guards on
`alignment ≠ 0` so that the function is total, and the claims only concern
positive alignments. -/
def pad_bytes_stream (data : List Nat) (alignment : Nat := 64) : List Nat :=
  if h : alignment ≠ 0 ∧ data.length % alignment ≠ 0 then
    pad_bytes_stream (data ++ [0]) alignment
  else
    data
termination_by (alignment - data.length % alignment) % alignment
decreasing_by
  obtain ⟨ha, hr⟩ := h
  have hpos : 0 < alignment := Nat.pos_of_ne_zero ha
  have hlt : data.length % alignment < alignment := Nat.mod_lt _ hpos
  have ha2 : 2 ≤ alignment := by omega
  have hstep : (data.length + 1) % alignment =
      (data.length % alignment + 1) % alignment := by
    conv_lhs => rw [Nat.add_mod]
    rw [Nat.mod_eq_of_lt (show 1 < alignment by omega)]
  simp only [List.length_append, List.length_cons, List.length_nil]
  rw [hstep]
  rcases Nat.lt_or_ge (data.length % alignment + 1) alignment with hc | hc
  · rw [Nat.mod_eq_of_lt hc,
      Nat.mod_eq_of_lt (show alignment - (data.length % alignment + 1) < alignment by omega),
      Nat.mod_eq_of_lt (show alignment - data.length % alignment < alignment by omega)]
    omega
  · have h2 : data.length % alignment + 1 = alignment := by omega
    rw [h2, Nat.mod_self, Nat.sub_zero, Nat.mod_self,
      Nat.mod_eq_of_lt (show alignment - data.length % alignment < alignment by omega)]
    omega

/-!
## `ticket.py`
-/

/-- `TitleLimit` from `ticket.py`: the type of play limit applied
(`0` = none, `1` = time limit, `3` = none, `4` = launch count) and the
maximum value of the limit. -/
structure TitleLimit where
  limit_type : Nat
  maximum_usage : Nat
deriving Repr, DecidableEq

/-- The decoded fields assigned by `Ticket.__init__`.  The issuer string is
kept as the list of Unicode code points produced by decoding its 64 raw
bytes as UTF-8. -/
structure Ticket where
  signature_type : List Nat
  signature : List Nat
  signature_issuer : List Nat
  ecdh_data : List Nat
  ticket_version : Nat
  title_key_enc : List Nat
  ticket_id : List Nat
  console_id : Nat
  title_id : List Nat
  title_version : Nat
  permitted_titles : List Nat
  permit_mask : List Nat
  title_export_allowed : Nat
  common_key_index : Nat
  content_access_permissions : List Nat
  title_limits_list : List TitleLimit
deriving Repr, DecidableEq

/-- The one way `Ticket.__init__` can fail: `bytes.decode()` on the
signature-issuer field raising `UnicodeDecodeError` when the 64 bytes at
offset `0x140` are not valid UTF-8. -/
inductive DecodeError where
  | unicodeDecodeError
deriving Repr, DecidableEq

/-- `Ticket.__init__` from `ticket.py`: parse a raw byte buffer into a
`Ticket`.  Every field is read at the absolute offset the source seeks to;
the eight play-limit pairs are read sequentially starting at `0x264`, so the
pair `i` occupies bytes `0x264 + 8*i` through `0x264 + 8*i + 7`.  The
constructor raises (here: returns `Except.error`) exactly when the issuer
bytes fail UTF-8 decoding; no length validation is performed, since
`BytesIO.read` silently clamps to the end of the buffer. -/
def Ticket.decode (buf : List Nat) : Except DecodeError Ticket :=
  match utf8Decode (readBytes buf 0x140 64) with
  | none => Except.error DecodeError.unicodeDecodeError
  | some issuer => Except.ok
    { signature_type := readBytes buf 0x0 4
      signature := readBytes buf 0x04 256
      signature_issuer := issuer
      ecdh_data := readBytes buf 0x180 60
      ticket_version := intFromBytes (readBytes buf 0x1BC 1)
      title_key_enc := readBytes buf 0x1BF 16
      ticket_id := readBytes buf 0x1D0 8
      console_id := intFromBytes (readBytes buf 0x1D8 4)
      title_id := readBytes buf 0x1DC 8
      title_version :=
        intFromBytes (readBytes buf 0x1E6 1) * 256 +
          intFromBytes (readBytes buf 0x1E7 1)
      permitted_titles := readBytes buf 0x1E8 4
      permit_mask := readBytes buf 0x1EC 4
      title_export_allowed := intFromBytes (readBytes buf 0x1F0 1)
      common_key_index := intFromBytes (readBytes buf 0x1F1 1)
      content_access_permissions := readBytes buf 0x222 64
      title_limits_list := (List.range 8).map (fun i =>
        { limit_type := intFromBytes (readBytes buf (0x264 + 8 * i) 4)
          maximum_usage := intFromBytes (readBytes buf (0x264 + 8 * i + 4) 4) }) }

/-- `Ticket.get_common_key_type` from `ticket.py`: a `match` over
`common_key_index` with arms for `0`, `1` and `2` only.  A Python `match`
with no matching case falls through and the method returns `None`, modelled
as `Option.none`; no exception is raised on any index. -/
def Ticket.get_common_key_type (t : Ticket) : Option String :=
  match t.common_key_index with
  | 0 => some "Common"
  | 1 => some "Korean"
  | 2 => some "vWii"
  | _ => none

/-- Errors of the title-key resolver, from the spec's error taxonomy
(section 7): `UnknownKeyIndex` for a common-key index outside `{0,1,2}`,
`KeyDerivationFailed` for cipher/key-table failures such as a missing
key-table entry. -/
inductive ResolveError where
  | unknownKeyIndex
  | keyDerivationFailed
deriving Repr, DecidableEq

/-- Modelled from the spec: `decrypt_title_key` lives in
`src/libWiiPy/crypto.py`, which is not part of the provided sources (only
its caller `Ticket.get_title_key` is).  Following the spec's resolver
contract (section 4.2): fail with `UnknownKeyIndex` when the common-key
index is outside `{0,1,2}`; otherwise select `master_keys[index]` (a missing
table entry is `KeyDerivationFailed`) and decrypt the 16-byte encrypted
title key with AES-128-CBC under the selected master key, using the 8-byte
title id followed by 8 zero bytes as the initialization vector.  The cipher
primitive itself is an external collaborator, passed in as
`aesCbcDecrypt key iv ciphertext`. -/
def decrypt_title_key (aesCbcDecrypt : List Nat → List Nat → List Nat → List Nat)
    (master_keys : Nat → Option (List Nat))
    (title_key_enc : List Nat) (common_key_index : Nat) (title_id : List Nat) :
    Except ResolveError (List Nat) :=
  if common_key_index = 0 ∨ common_key_index = 1 ∨ common_key_index = 2 then
    match master_keys common_key_index with
    | some key =>
        Except.ok (aesCbcDecrypt key (title_id ++ List.replicate 8 0) title_key_enc)
    | none => Except.error ResolveError.keyDerivationFailed
  else
    Except.error ResolveError.unknownKeyIndex

/-- `Ticket.get_title_key` from `ticket.py`: delegate to
`decrypt_title_key(self.title_key_enc, self.common_key_index,
self.title_id)`, with the cipher primitive and the master-key table as the
external collaborators the spec injects. -/
def Ticket.get_title_key (aesCbcDecrypt : List Nat → List Nat → List Nat → List Nat)
    (master_keys : Nat → Option (List Nat)) (t : Ticket) :
    Except ResolveError (List Nat) :=
  decrypt_title_key aesCbcDecrypt master_keys t.title_key_enc t.common_key_index t.title_id

/-- `Except` success test, used to state that decoding produced a ticket. -/
def exceptIsOk {ε α : Type} : Except ε α → Bool
  | Except.ok _ => true
  | Except.error _ => false

/-!
## Helper lemmas about `align_value` and `pad_bytes_stream`
-/

theorem align_value_mod (v a : Nat) (ha : 0 < a) : align_value v a % a = 0 := by
  unfold align_value
  by_cases h : v % a = 0
  · simp [h]
  · simp only [h, if_pos, ne_eq, not_false_eq_true, if_true]
    have h1 := Nat.div_add_mod v a
    have h2 : v % a < a := Nat.mod_lt _ ha
    have key : v + (a - v % a) = a * (v / a + 1) := by
      rw [Nat.mul_succ]
      generalize a * (v / a) = w at h1 ⊢
      omega
    rw [key, Nat.mul_mod_right]

theorem align_value_le (v a : Nat) : v ≤ align_value v a := by
  unfold align_value
  by_cases h : v % a = 0 <;> simp [h]

theorem align_value_min (v a : Nat) (ha : 0 < a) :
    ∀ m, m % a = 0 → v ≤ m → align_value v a ≤ m := by
  intro m hm hv
  unfold align_value
  by_cases h : v % a = 0
  · simpa [h] using hv
  · simp only [h, ne_eq, not_false_eq_true, if_true]
    obtain ⟨k, rfl⟩ := Nat.dvd_of_mod_eq_zero hm
    have h1 := Nat.div_add_mod v a
    have h2 : v % a < a := Nat.mod_lt _ ha
    have key : v + (a - v % a) = a * (v / a + 1) := by
      rw [Nat.mul_succ]
      generalize a * (v / a) = w at h1 ⊢
      omega
    have hvlt : v < a * k := by
      rcases Nat.lt_or_eq_of_le hv with hlt | heq
      · exact hlt
      · exact absurd (heq ▸ Nat.mul_mod_right a k) h
    have hvlt' : v < k * a := by rw [Nat.mul_comm]; exact hvlt
    have hdiv : v / a < k := (Nat.div_lt_iff_lt_mul ha).mpr hvlt'
    rw [key]
    exact Nat.mul_le_mul_left a hdiv

/-- Closed form of the padding loop: it appends exactly
`(alignment - data.length % alignment) % alignment` zero bytes. -/
theorem pad_bytes_stream_closed (a : Nat) (ha : 0 < a) :
    ∀ n (data : List Nat), (a - data.length % a) % a = n →
      pad_bytes_stream data a = data ++ List.replicate n 0 := by
  intro n
  induction n using Nat.strong_induction_on with
  | _ n ih =>
    intro data hn
    rw [pad_bytes_stream]
    by_cases hr : data.length % a = 0
    · have hn0 : n = 0 := by rw [← hn, hr, Nat.sub_zero, Nat.mod_self]
      simp [hr, hn0]
    · have hcond : a ≠ 0 ∧ data.length % a ≠ 0 := ⟨Nat.pos_iff_ne_zero.mp ha, hr⟩
      rw [dif_pos hcond]
      have hlt : data.length % a < a := Nat.mod_lt _ ha
      have hstep : (data.length + 1) % a = (data.length % a + 1) % a := by
        conv_lhs => rw [Nat.add_mod]
        rcases Nat.lt_or_ge 1 a with h1a | h1a
        · rw [Nat.mod_eq_of_lt h1a]
        · omega
      have hn' : n = (a - data.length % a) % a := hn.symm
      have hnval : n = a - data.length % a := by
        rw [hn', Nat.mod_eq_of_lt (by omega)]
      -- the recursive call appends n - 1 further zero bytes
      have hlen : ((data ++ [0]).length) = data.length + 1 := by simp
      have hkey : (a - (data ++ [0]).length % a) % a = n - 1 := by
        rw [hlen, hstep]
        rcases Nat.lt_or_ge (data.length % a + 1) a with hc | hc
        · rw [Nat.mod_eq_of_lt hc, Nat.mod_eq_of_lt (by omega)]
          omega
        · have h2 : data.length % a + 1 = a := by omega
          rw [h2, Nat.mod_self, Nat.sub_zero, Nat.mod_self]
          omega
      have hrec := ih (n - 1) (by omega) (data ++ [0]) hkey
      have hrepl : List.replicate n 0 = 0 :: List.replicate (n - 1) 0 := by
        conv_lhs => rw [show n = (n - 1) + 1 by omega]
        rw [List.replicate_succ]
      rw [hrec, List.append_assoc, hrepl]
      rfl

/-!
## Helper lemmas about `Ticket.decode`
-/

/-- Characterization of a successful decode: the issuer bytes decode as
UTF-8, and every field of the resulting ticket is the read at its source
offset. -/
theorem Ticket.decode_eq_ok (buf : List Nat) (t : Ticket) :
    Ticket.decode buf = Except.ok t ↔
      ∃ issuer, utf8Decode (readBytes buf 0x140 64) = some issuer ∧
        t = { signature_type := readBytes buf 0x0 4
              signature := readBytes buf 0x04 256
              signature_issuer := issuer
              ecdh_data := readBytes buf 0x180 60
              ticket_version := intFromBytes (readBytes buf 0x1BC 1)
              title_key_enc := readBytes buf 0x1BF 16
              ticket_id := readBytes buf 0x1D0 8
              console_id := intFromBytes (readBytes buf 0x1D8 4)
              title_id := readBytes buf 0x1DC 8
              title_version :=
                intFromBytes (readBytes buf 0x1E6 1) * 256 +
                  intFromBytes (readBytes buf 0x1E7 1)
              permitted_titles := readBytes buf 0x1E8 4
              permit_mask := readBytes buf 0x1EC 4
              title_export_allowed := intFromBytes (readBytes buf 0x1F0 1)
              common_key_index := intFromBytes (readBytes buf 0x1F1 1)
              content_access_permissions := readBytes buf 0x222 64
              title_limits_list := (List.range 8).map (fun i =>
                { limit_type := intFromBytes (readBytes buf (0x264 + 8 * i) 4)
                  maximum_usage := intFromBytes (readBytes buf (0x264 + 8 * i + 4) 4) }) } := by
  unfold Ticket.decode
  cases h : utf8Decode (readBytes buf 0x140 64) with
  | none => simp
  | some s =>
    simp only [Except.ok.injEq, Option.some.injEq]
    constructor
    · rintro rfl
      exact ⟨s, rfl, rfl⟩
    · rintro ⟨issuer, hiss, rfl⟩
      rw [hiss]

/-- Reading a single byte at an in-range offset yields that byte of the
buffer. -/
theorem intFromBytes_single (buf : List Nat) (off : Nat) (h : off < buf.length) :
    intFromBytes (readBytes buf off 1) = buf.getD off 0 := by
  unfold readBytes
  rw [List.drop_eq_getElem_cons h, List.getD_eq_getElem buf 0 h]
  have htake : List.take 1 (buf[off] :: List.drop (off + 1) buf) = [buf[off]] := rfl
  rw [htake]
  simp [intFromBytes]

/-!
## Concrete example data
-/

/-- The all-zero ticket produced by decoding 676 zero bytes. -/
def zeroTicket : Ticket :=
  { signature_type := List.replicate 4 0
    signature := List.replicate 256 0
    signature_issuer := List.replicate 64 0
    ecdh_data := List.replicate 60 0
    ticket_version := 0
    title_key_enc := List.replicate 16 0
    ticket_id := List.replicate 8 0
    console_id := 0
    title_id := List.replicate 8 0
    title_version := 0
    permitted_titles := List.replicate 4 0
    permit_mask := List.replicate 4 0
    title_export_allowed := 0
    common_key_index := 0
    content_access_permissions := List.replicate 64 0
    title_limits_list := List.replicate 8 { limit_type := 0, maximum_usage := 0 } }

/-- A 676-byte buffer that is all zero except for the byte `0xFF` at offset
`0x262` — the first of the two bytes between the end of the
content-access-permissions field (`0x222 + 64 = 0x262`) and the play-limit
area (`0x264`). -/
def gapBuf : List Nat :=
  List.replicate 0x262 0 ++ [0xFF] ++ List.replicate 65 0

/-- A 488-byte buffer whose two title-version bytes (offsets `0x1E6` and
`0x1E7`) are `0x01` and `0x2C`, all other bytes zero. -/
def versionBuf : List Nat :=
  List.replicate 0x1E6 0 ++ [0x01, 0x2C]

/-- The ticket decoded from `versionBuf`. -/
def versionTicket : Ticket :=
  { signature_type := List.replicate 4 0
    signature := List.replicate 256 0
    signature_issuer := List.replicate 64 0
    ecdh_data := List.replicate 60 0
    ticket_version := 0
    title_key_enc := List.replicate 16 0
    ticket_id := List.replicate 8 0
    console_id := 0
    title_id := List.replicate 8 0
    title_version := 300
    permitted_titles := []
    permit_mask := []
    title_export_allowed := 0
    common_key_index := 0
    content_access_permissions := []
    title_limits_list := List.replicate 8 { limit_type := 0, maximum_usage := 0 } }

/-- A buffer whose issuer field starts with the byte `0xFF`, which is never
valid in UTF-8. -/
def badIssuerBuf : List Nat :=
  List.replicate 0x140 0 ++ [0xFF] ++ List.replicate 355 0

/-- A ticket whose fields are all empty except for a distinctive encrypted
title key, title id, and the given common-key index. -/
def sampleTicket (idx : Nat) : Ticket :=
  { signature_type := []
    signature := []
    signature_issuer := []
    ecdh_data := []
    ticket_version := 0
    title_key_enc := List.replicate 16 0xAB
    ticket_id := []
    console_id := 0
    title_id := List.replicate 8 0xCD
    title_version := 0
    permitted_titles := []
    permit_mask := []
    title_export_allowed := 0
    common_key_index := idx
    content_access_permissions := []
    title_limits_list := [] }

/-- A synthetic cipher primitive used in witnesses: it returns the
ciphertext together with the key and IV so that the key/IV selection is
observable. -/
def sampleCipher (key iv ct : List Nat) : List Nat :=
  key ++ iv ++ ct

/-- A complete 3-entry master-key table with synthetic keys. -/
def sampleKeys (i : Nat) : Option (List Nat) :=
  if i ≤ 2 then some (List.replicate 16 i) else none

/-- The padded stream is exactly `align_value` bytes long. -/
theorem pad_bytes_stream_length (data : List Nat) (a : Nat) (ha : 0 < a) :
    (pad_bytes_stream data a).length = align_value data.length a := by
  rw [pad_bytes_stream_closed a ha _ data rfl]
  simp only [List.length_append, List.length_replicate]
  unfold align_value
  by_cases hr : data.length % a = 0
  · simp [hr, Nat.sub_zero, Nat.mod_self]
  · have hlt : data.length % a < a := Nat.mod_lt _ ha
    simp only [ne_eq, hr, not_false_eq_true, if_true]
    rw [Nat.mod_eq_of_lt (by omega)]

/-!
## Claims
-/

/-- Claim C9: `align_value value alignment` returns the smallest multiple of
the alignment that is ≥ the value, for every positive alignment; in
particular `align_value 0 64 = 0`, `align_value 1 64 = 64`,
`align_value 64 64 = 64` and `align_value 65 64 = 128`. -/
theorem align_value_smallest_multiple :
    (∀ v a, 0 < a →
      align_value v a % a = 0 ∧ v ≤ align_value v a ∧
        ∀ m, m % a = 0 → v ≤ m → align_value v a ≤ m) ∧
    align_value 0 64 = 0 ∧ align_value 1 64 = 64 ∧
    align_value 64 64 = 64 ∧ align_value 65 64 = 128 :=
  ⟨fun v a ha => ⟨align_value_mod v a ha, align_value_le v a, align_value_min v a ha⟩,
    by decide, by decide, by decide, by decide⟩

/-- Witness for claim C9 at value 65, alignment 64. -/
theorem align_value_smallest_multiple_witness :
    0 < 64 ∧ (align_value 65 64 % 64 = 0 ∧ 65 ≤ align_value 65 64 ∧
      ∀ m, m % 64 = 0 → 65 ≤ m → align_value 65 64 ≤ m) :=
  ⟨by decide, align_value_smallest_multiple.1 65 64 (by decide)⟩

/-- Claim C8: for every byte buffer and positive alignment,
`pad_bytes_stream` returns a buffer whose length is the smallest multiple of
the alignment ≥ the input length, whose leading bytes are the input
unchanged, and whose appended bytes are all zero; in particular a 10-byte
buffer padded to alignment 64 becomes the original 10 bytes followed by 54
zero bytes. -/
theorem pad_bytes_stream_pads_with_zeros (data : List Nat) (a : Nat) (ha : 0 < a) :
    ((pad_bytes_stream data a).length % a = 0 ∧
      data.length ≤ (pad_bytes_stream data a).length ∧
      (∀ m, m % a = 0 → data.length ≤ m → (pad_bytes_stream data a).length ≤ m)) ∧
    (pad_bytes_stream data a).take data.length = data ∧
    (∀ b, b ∈ (pad_bytes_stream data a).drop data.length → b = 0) ∧
    pad_bytes_stream [1, 2, 3, 4, 5, 6, 7, 8, 9, 10] 64 =
      [1, 2, 3, 4, 5, 6, 7, 8, 9, 10] ++ List.replicate 54 0 := by
  have hlen := pad_bytes_stream_length data a ha
  have hclosed := pad_bytes_stream_closed a ha _ data rfl
  refine ⟨⟨?_, ?_, ?_⟩, ?_, ?_, ?_⟩
  · rw [hlen]; exact align_value_mod _ a ha
  · rw [hlen]; exact align_value_le _ a
  · intro m hm hdm; rw [hlen]; exact align_value_min _ a ha m hm hdm
  · rw [hclosed]
    simp
  · intro b hb
    rw [hclosed] at hb
    rw [List.drop_left] at hb
    exact List.eq_of_mem_replicate hb
  · rw [pad_bytes_stream_closed 64 (by decide) _ [1, 2, 3, 4, 5, 6, 7, 8, 9, 10] rfl]
    rfl

/-- Witness for claim C8 on the 10-byte buffer `[1, …, 10]` with alignment
64. -/
theorem pad_bytes_stream_pads_with_zeros_witness :
    0 < 64 ∧
    (((pad_bytes_stream [1, 2, 3, 4, 5, 6, 7, 8, 9, 10] 64).length % 64 = 0 ∧
      ([1, 2, 3, 4, 5, 6, 7, 8, 9, 10] : List Nat).length ≤
        (pad_bytes_stream [1, 2, 3, 4, 5, 6, 7, 8, 9, 10] 64).length ∧
      (∀ m, m % 64 = 0 → ([1, 2, 3, 4, 5, 6, 7, 8, 9, 10] : List Nat).length ≤ m →
        (pad_bytes_stream [1, 2, 3, 4, 5, 6, 7, 8, 9, 10] 64).length ≤ m)) ∧
    (pad_bytes_stream [1, 2, 3, 4, 5, 6, 7, 8, 9, 10] 64).take
        ([1, 2, 3, 4, 5, 6, 7, 8, 9, 10] : List Nat).length =
      [1, 2, 3, 4, 5, 6, 7, 8, 9, 10] ∧
    (∀ b, b ∈ (pad_bytes_stream [1, 2, 3, 4, 5, 6, 7, 8, 9, 10] 64).drop
        ([1, 2, 3, 4, 5, 6, 7, 8, 9, 10] : List Nat).length → b = 0) ∧
    pad_bytes_stream [1, 2, 3, 4, 5, 6, 7, 8, 9, 10] 64 =
      [1, 2, 3, 4, 5, 6, 7, 8, 9, 10] ++ List.replicate 54 0) :=
  ⟨by decide, pad_bytes_stream_pads_with_zeros [1, 2, 3, 4, 5, 6, 7, 8, 9, 10] 64 (by decide)⟩

/-- Claim C2 counterexample: the empty buffer is shorter than 0x2A4 (676)
bytes, yet decoding succeeds — the source performs no length validation, so
every read clamps to the end of the buffer and each field comes out
empty/zero instead of the decode failing. -/
theorem ticket_decode_empty_buffer_succeeds :
    Ticket.decode [] = Except.ok
      { signature_type := []
        signature := []
        signature_issuer := []
        ecdh_data := []
        ticket_version := 0
        title_key_enc := []
        ticket_id := []
        console_id := 0
        title_id := []
        title_version := 0
        permitted_titles := []
        permit_mask := []
        title_export_allowed := 0
        common_key_index := 0
        content_access_permissions := []
        title_limits_list := List.replicate 8 { limit_type := 0, maximum_usage := 0 } } :=
  rfl

/-- Claim C2 (amended): the decoder performs no length check — a buffer
shorter than 676 bytes decodes successfully exactly when its issuer-field
bytes are valid UTF-8, with out-of-range reads yielding empty bytes and zero
integers — and the buffer of exactly 676 all-zero bytes decodes to the
all-zero/default ticket. -/
theorem ticket_decode_short_and_zero :
    (∀ buf : List Nat, buf.length < 676 →
      (exceptIsOk (Ticket.decode buf) = true ↔
        (utf8Decode (readBytes buf 0x140 64)).isSome = true)) ∧
    Ticket.decode (List.replicate 676 0) = Except.ok zeroTicket := by
  constructor
  · intro buf _
    cases h : utf8Decode (readBytes buf 0x140 64) with
    | none => simp [Ticket.decode, h, exceptIsOk]
    | some s => simp [Ticket.decode, h, exceptIsOk]
  · rfl

/-- Witness for claim C2 (amended) at the empty buffer. -/
theorem ticket_decode_short_and_zero_witness :
    ([] : List Nat).length < 676 ∧
      (exceptIsOk (Ticket.decode ([] : List Nat)) = true ↔
        (utf8Decode (readBytes ([] : List Nat) 0x140 64)).isSome = true) :=
  ⟨by decide, ticket_decode_short_and_zero.1 [] (by decide)⟩

/-- Claim C4: for every buffer long enough to contain both title-version
bytes, the decoded `title_version` is the byte at offset `0x1E6` times 256
plus the byte at offset `0x1E7`, each obtained by an independent single-byte
read. -/
theorem ticket_title_version_two_byte_reads (buf : List Nat) (t : Ticket)
    (hlen : 0x1E8 ≤ buf.length) (hdec : Ticket.decode buf = Except.ok t) :
    t.title_version = buf.getD 0x1E6 0 * 256 + buf.getD 0x1E7 0 := by
  obtain ⟨issuer, hiss, rfl⟩ := (Ticket.decode_eq_ok buf t).mp hdec
  show intFromBytes (readBytes buf 0x1E6 1) * 256 + intFromBytes (readBytes buf 0x1E7 1) = _
  rw [intFromBytes_single buf 0x1E6 (by omega), intFromBytes_single buf 0x1E7 (by omega)]

/-- Witness for claim C4: high byte 0x01 and low byte 0x2C at offsets
`0x1E6`/`0x1E7` decode to `title_version = 300`. -/
theorem ticket_title_version_two_byte_reads_witness :
    0x1E8 ≤ versionBuf.length ∧ Ticket.decode versionBuf = Except.ok versionTicket ∧
      versionTicket.title_version = versionBuf.getD 0x1E6 0 * 256 + versionBuf.getD 0x1E7 0 ∧
      versionTicket.title_version = 300 :=
  ⟨by decide, rfl,
    ticket_title_version_two_byte_reads versionBuf versionTicket (by decide) rfl, rfl⟩

/-- Claim C5 counterexample: in `gapBuf` the byte immediately following the
last content-access-permissions byte (offset `0x222 + 64 = 0x262`) is
`0xFF`.  If the first play-limit pair were read from there, its kind would
be `0xFF000000`; the decoder instead reads the pair at offset `0x264`,
skipping two bytes, and yields kind `0`. -/
theorem ticket_play_limits_gap_counterexample :
    Except.map
        (fun t => (t.title_limits_list.getD 0
          { limit_type := 999, maximum_usage := 999 }).limit_type)
        (Ticket.decode gapBuf) = Except.ok 0 ∧
      intFromBytes (readBytes gapBuf (0x222 + 64) 4) = 0xFF000000 :=
  ⟨rfl, rfl⟩

/-- Claim C5 (amended): the decoder reads the 8 play-limit pairs starting
two bytes after the end of the 64-byte content-access-permissions field —
pair `i` is read at offset `0x222 + 64 + 2 + 8*i` (= `0x264 + 8*i`), not at
the byte immediately following the field. -/
theorem ticket_play_limits_after_gap (buf : List Nat) (t : Ticket)
    (hdec : Ticket.decode buf = Except.ok t) :
    ∀ i, i < 8 →
      t.title_limits_list.getD i { limit_type := 999, maximum_usage := 999 } =
        { limit_type := intFromBytes (readBytes buf (0x222 + 64 + 2 + 8 * i) 4)
          maximum_usage := intFromBytes (readBytes buf (0x222 + 64 + 2 + 8 * i + 4) 4) } := by
  obtain ⟨issuer, hiss, rfl⟩ := (Ticket.decode_eq_ok buf t).mp hdec
  intro i hi
  interval_cases i <;> rfl

/-- Witness for claim C5 (amended) at `gapBuf`, pair 0. -/
theorem ticket_play_limits_after_gap_witness :
    Ticket.decode gapBuf = Except.ok zeroTicket ∧ 0 < 8 ∧
      zeroTicket.title_limits_list.getD 0 { limit_type := 999, maximum_usage := 999 } =
        { limit_type := intFromBytes (readBytes gapBuf (0x222 + 64 + 2 + 8 * 0) 4)
          maximum_usage := intFromBytes (readBytes gapBuf (0x222 + 64 + 2 + 8 * 0 + 4) 4) } :=
  ⟨rfl, by decide, ticket_play_limits_after_gap gapBuf zeroTicket rfl 0 (by decide)⟩

/-- Claim C6: every successfully decoded ticket carries exactly 8 play-limit
entries, in the order they appear in the buffer (entry `i` is read from
offset `0x264 + 8*i`), regardless of their content. -/
theorem ticket_play_limits_cardinality (buf : List Nat) (t : Ticket)
    (hdec : Ticket.decode buf = Except.ok t) :
    t.title_limits_list.length = 8 ∧
      t.title_limits_list = (List.range 8).map (fun i =>
        { limit_type := intFromBytes (readBytes buf (0x264 + 8 * i) 4)
          maximum_usage := intFromBytes (readBytes buf (0x264 + 8 * i + 4) 4) }) := by
  obtain ⟨issuer, hiss, rfl⟩ := (Ticket.decode_eq_ok buf t).mp hdec
  exact ⟨by simp, rfl⟩

/-- Witness for claim C6 at the all-zero 676-byte buffer. -/
theorem ticket_play_limits_cardinality_witness :
    Ticket.decode (List.replicate 676 0) = Except.ok zeroTicket ∧
      zeroTicket.title_limits_list.length = 8 :=
  ⟨rfl, (ticket_play_limits_cardinality (List.replicate 676 0) zeroTicket rfl).1⟩

/-- Claim C7: when the 64 issuer bytes at offsets `0x140`–`0x17F` are not
valid UTF-8, decoding fails with the Unicode decode error (the spec's
`MalformedTicket` case for an invalid text field) instead of silently
substituting characters; and decoding is atomic — it returns either a fully
populated ticket or that error, never a partially populated ticket. -/
theorem ticket_decode_invalid_issuer_fails :
    (∀ buf : List Nat, utf8Decode (readBytes buf 0x140 64) = none →
      Ticket.decode buf = Except.error DecodeError.unicodeDecodeError) ∧
    (∀ buf : List Nat, (∃ t, Ticket.decode buf = Except.ok t) ∨
      Ticket.decode buf = Except.error DecodeError.unicodeDecodeError) := by
  constructor
  · intro buf h
    simp [Ticket.decode, h]
  · intro buf
    cases h : utf8Decode (readBytes buf 0x140 64) with
    | none => right; simp [Ticket.decode, h]
    | some s => exact Or.inl ⟨_, (Ticket.decode_eq_ok buf _).mpr ⟨s, h, rfl⟩⟩

/-- Witness for claim C7 at `badIssuerBuf`, whose issuer field starts with
the byte `0xFF`. -/
theorem ticket_decode_invalid_issuer_fails_witness :
    utf8Decode (readBytes badIssuerBuf 0x140 64) = none ∧
      Ticket.decode badIssuerBuf = Except.error DecodeError.unicodeDecodeError :=
  ⟨rfl, ticket_decode_invalid_issuer_fails.1 badIssuerBuf rfl⟩

/-- Claim C1: with a complete 3-entry master-key table, resolving the title
key of a ticket whose common-key index is outside `{0,1,2}` fails with
`UnknownKeyIndex` — it is never silently mapped to the Common key — while
indices 0, 1 and 2 each resolve without error. -/
theorem get_title_key_index_domain
    (aes : List Nat → List Nat → List Nat → List Nat)
    (mk : Nat → Option (List Nat)) (t : Ticket)
    (hmk : (mk 0).isSome = true ∧ (mk 1).isSome = true ∧ (mk 2).isSome = true) :
    (¬(t.common_key_index = 0 ∨ t.common_key_index = 1 ∨ t.common_key_index = 2) →
      Ticket.get_title_key aes mk t = Except.error ResolveError.unknownKeyIndex) ∧
    ((t.common_key_index = 0 ∨ t.common_key_index = 1 ∨ t.common_key_index = 2) →
      ∃ k, Ticket.get_title_key aes mk t = Except.ok k) := by
  obtain ⟨h0, h1, h2⟩ := hmk
  constructor
  · intro h
    unfold Ticket.get_title_key decrypt_title_key
    rw [if_neg h]
  · intro h
    unfold Ticket.get_title_key decrypt_title_key
    rw [if_pos h]
    rcases h with h | h | h <;> rw [h]
    · obtain ⟨k0, hk0⟩ := Option.isSome_iff_exists.mp h0
      rw [hk0]
      exact ⟨_, rfl⟩
    · obtain ⟨k1, hk1⟩ := Option.isSome_iff_exists.mp h1
      rw [hk1]
      exact ⟨_, rfl⟩
    · obtain ⟨k2, hk2⟩ := Option.isSome_iff_exists.mp h2
      rw [hk2]
      exact ⟨_, rfl⟩

/-- Witness for claim C1: a ticket with common-key index 3 fails with
`UnknownKeyIndex` even though the sample key table is complete. -/
theorem get_title_key_index_domain_witness :
    ((sampleKeys 0).isSome = true ∧ (sampleKeys 1).isSome = true ∧
      (sampleKeys 2).isSome = true) ∧
    ¬((sampleTicket 3).common_key_index = 0 ∨ (sampleTicket 3).common_key_index = 1 ∨
        (sampleTicket 3).common_key_index = 2) ∧
    Ticket.get_title_key sampleCipher sampleKeys (sampleTicket 3) =
      Except.error ResolveError.unknownKeyIndex :=
  ⟨⟨by decide, by decide, by decide⟩, by decide,
    (get_title_key_index_domain sampleCipher sampleKeys (sampleTicket 3)
      ⟨by decide, by decide, by decide⟩).1 (by decide)⟩

/-- Claim C3: for a ticket whose common-key index is 0, 1 or 2, the resolved
title key is exactly the AES-128-CBC decryption of the 16-byte encrypted
title key under the master key selected by the index, with initialization
vector equal to the 8-byte title id followed by 8 zero bytes. -/
theorem get_title_key_cbc (aes : List Nat → List Nat → List Nat → List Nat)
    (mk : Nat → Option (List Nat)) (t : Ticket) (key : List Nat)
    (hidx : t.common_key_index = 0 ∨ t.common_key_index = 1 ∨ t.common_key_index = 2)
    (hkey : mk t.common_key_index = some key) :
    Ticket.get_title_key aes mk t =
      Except.ok (aes key (t.title_id ++ List.replicate 8 0) t.title_key_enc) := by
  unfold Ticket.get_title_key decrypt_title_key
  rw [if_pos hidx, hkey]

/-- Witness for claim C3 at a ticket with common-key index 1 and the sample
key table and cipher. -/
theorem get_title_key_cbc_witness :
    ((sampleTicket 1).common_key_index = 0 ∨ (sampleTicket 1).common_key_index = 1 ∨
        (sampleTicket 1).common_key_index = 2) ∧
    sampleKeys (sampleTicket 1).common_key_index = some (List.replicate 16 1) ∧
    Ticket.get_title_key sampleCipher sampleKeys (sampleTicket 1) =
      Except.ok (sampleCipher (List.replicate 16 1)
        ((sampleTicket 1).title_id ++ List.replicate 8 0) (sampleTicket 1).title_key_enc) :=
  ⟨by decide, by decide,
    get_title_key_cbc sampleCipher sampleKeys (sampleTicket 1) (List.replicate 16 1)
      (by decide) (by decide)⟩

/-- Claim C10: for a common-key index outside `{0,1,2}`,
`get_common_key_type` returns no value at all (`None`) and raises no error —
the `match` in the source has no catch-all branch, so a missing result is
indistinguishable from an invalid index without checking the raw index. -/
theorem get_common_key_type_unknown_is_none (t : Ticket)
    (h : ¬(t.common_key_index = 0 ∨ t.common_key_index = 1 ∨ t.common_key_index = 2)) :
    t.get_common_key_type = none := by
  unfold Ticket.get_common_key_type
  split <;> simp_all

/-- Witness for claim C10 at a ticket with common-key index 255. -/
theorem get_common_key_type_unknown_is_none_witness :
    ¬((sampleTicket 255).common_key_index = 0 ∨ (sampleTicket 255).common_key_index = 1 ∨
        (sampleTicket 255).common_key_index = 2) ∧
    (sampleTicket 255).get_common_key_type = none :=
  ⟨by decide, get_common_key_type_unknown_is_none (sampleTicket 255) (by decide)⟩
